import Mathlib

/-!
Verification of the audio pipeline of the SAMRIDHA-S-BOT repository.

The embedded code comes from two source files:

* `src/unnamed/part_001` (audio utilities): `decodeBase64`,
  `decodeAudioData`, `playAudioBuffer`.
* `src/services/geminiService.ts`: `synthesizeAndPlaySpeech`.

Sample values and times are modelled as rationals.  Every sample the
decoder produces is an int16 value divided by 32768; in IEEE-754 doubles
that division is exact (a division by a power of two of a 16-bit integer),
so the rational embedding is value-faithful.
-/

namespace Bot

/-- Decode errors of the audio decoder.  In the source,
`new Int16Array(data.buffer)` throws a `RangeError` when the byte length
of the buffer is not a multiple of 2; the promise returned by
`decodeAudioData` rejects with that error.  The spec names this terminal
failure `DecodeFailed`. -/
inductive DecodeError where
  | DecodeFailed
deriving DecidableEq, Repr

/-- A decoded audio buffer, mirroring the Web Audio `AudioBuffer` that
`ctx.createBuffer(numChannels, frameCount, sampleRate)` creates and
`decodeAudioData` fills: a number of channels, a sample rate, a frame
count, and per-channel sample data. -/
structure AudioBuffer where
  numChannels : ℕ
  sampleRate : ℕ
  frames : ℕ
  channels : List (List ℚ)
deriving DecidableEq, Repr

/-- `audioBuffer.duration` of the Web Audio API: frame count divided by
sample rate, in seconds. -/
def duration (b : AudioBuffer) : ℚ :=
  (b.frames : ℚ) / (b.sampleRate : ℚ)

/-- The signed 16-bit value stored little-endian in two bytes, as read by
`Int16Array` from the underlying buffer: `lo + 256*hi`, reinterpreted as
a two's-complement int16. -/
def toInt16 (lo hi : ℕ) : ℤ :=
  let u := lo + 256 * hi
  if u < 32768 then (u : ℤ) else (u : ℤ) - 65536

/-- The whole `Int16Array` view of a byte sequence: consecutive byte
pairs, little-endian.  (`Int16Array` has `floor(byteLength/2)` elements;
construction itself rejects odd byte lengths, which `decodeAudioData`
below handles.) -/
def toInt16List : List ℕ → List ℤ
  | lo :: hi :: rest => toInt16 lo hi :: toInt16List rest
  | _ => []

/-- `decodeAudioData(data, ctx, sampleRate, numChannels)` from
`src/unnamed/part_001` lines 27-44.

* `new Int16Array(data.buffer)` throws a `RangeError` if the byte length
  is odd (the `Uint8Array` produced by `decodeBase64` owns its whole
  buffer, so the view length equals the byte length); the returned
  promise rejects.  Modelled as `Except.error DecodeError.DecodeFailed`.
* `frameCount = dataInt16.length / numChannels` is IEEE division; the
  WebIDL `unsigned long` conversion in `ctx.createBuffer` truncates it,
  so the created buffer has `floor(dataInt16.length / numChannels)`
  frames.  The copy loop runs `i` up to the untruncated `frameCount`;
  writes at `i ≥ floor(frameCount)` land out of bounds on the
  `Float32Array` and are silently dropped, so the resulting buffer holds
  exactly the first `floor` frames, `channelData[i] =
  dataInt16[i*numChannels + channel] / 32768.0`. -/
def decodeAudioData (data : List ℕ) (sampleRate numChannels : ℕ) :
    Except DecodeError AudioBuffer :=
  if data.length % 2 ≠ 0 then
    .error .DecodeFailed
  else
    let dataInt16 := toInt16List data
    let frameCount := dataInt16.length / numChannels
    .ok
      { numChannels := numChannels
        sampleRate := sampleRate
        frames := frameCount
        channels :=
          (List.range numChannels).map fun channel =>
            (List.range frameCount).map fun i =>
              ((dataInt16.getD (i * numChannels + channel) 0 : ℤ) : ℚ) / 32768 }

/-- Sample `i` of channel `c` of a decoded buffer (0 when out of range,
matching Float32Array reads of missing indices being irrelevant here:
all stated claims stay inside the bounds). -/
def sampleAt (b : AudioBuffer) (c i : ℕ) : ℚ :=
  (b.channels.getD c []).getD i 0

/-- `playAudioBuffer(audioBuffer, outputAudioContext, outputNode,
nextStartTime)` from `src/unnamed/part_001` lines 55-75.

The mutable ref `nextStartTime` is the shared audio clock cursor and
`outputAudioContext.currentTime` the wall clock at call time.  The
function sets `nextStartTime.current = max(nextStartTime.current,
currentTime)`, calls `source.start` at that instant, then advances the
cursor by the buffer's duration.  Modelled as a pure function returning
`(startTime, cursorAfter)`; the returned `AudioBufferSourceNode` carries
no further data the claims need. -/
def playAudioBuffer (audioBuffer : AudioBuffer) (currentTime : ℚ)
    (nextStartTime : ℚ) : ℚ × ℚ :=
  let start := max nextStartTime currentTime
  (start, start + duration audioBuffer)

/-- One scheduling step of a back-to-back sequence: the cursor before the
call, the start time `source.start` received, the buffer's duration, and
the cursor after the call. -/
structure SchedEntry where
  cursorBefore : ℚ
  startTime : ℚ
  dur : ℚ
  cursorAfter : ℚ
deriving DecidableEq, Repr

/-- Scheduling a list of `(buffer, wall-clock time at the call)` pairs
back-to-back through `playAudioBuffer` against one shared cursor,
recording each step. -/
def scheduleSeq (cursor : ℚ) : List (AudioBuffer × ℚ) → List SchedEntry
  | [] => []
  | (b, t) :: rest =>
    let p := playAudioBuffer b t cursor
    { cursorBefore := cursor, startTime := p.1, dur := duration b,
      cursorAfter := p.2 } :: scheduleSeq p.2 rest

/-- Adjacent-step invariant of a schedule: the later chunk starts no
earlier than the earlier chunk's start plus its duration, and the shared
cursor is handed over between the calls. -/
def SchedOk (a b : SchedEntry) : Prop :=
  a.startTime + a.dur ≤ b.startTime ∧ b.cursorBefore = a.cursorAfter

/-! ## The Gemini TTS service (`src/services/geminiService.ts`)

`synthesizeAndPlaySpeech` is an async function whose effects the claims
talk about are the invocations of the two callbacks `onPlaybackStarted`
and `onPlaybackEnded`, the scheduling of audio through
`playAudioBuffer`, and the resolved value / rejection of the returned
promise.  The environment of one call is captured explicitly:

* whether `process.env.API_KEY` is present;
* the outcome of `ai.models.generateContent`: a rejection (carrying an
  opaque error code), or a response whose optional
  `candidates[0].content.parts[0].inlineData.data` payload is modelled,
  after `decodeBase64`, as the byte list it denotes (`decodeBase64` is a
  total byte-for-byte translation of a base64 string);
* whether the caller-supplied `onPlaybackStarted` callback itself throws
  when invoked;
* `outputAudioContext.currentTime` at the moment of scheduling.
-/

/-- Failure values `synthesizeAndPlaySpeech` can reject with. -/
inductive GeminiError where
  /-- the `API_KEY is missing from environment` error thrown at the top
  of the `try` block -/
  | apiKeyMissing
  /-- a rejection coming out of `ai.models.generateContent` -/
  | provider (code : ℕ)
  /-- the rejection of `decodeAudioData` -/
  | decode (e : DecodeError)
  /-- an exception thrown by the `onPlaybackStarted` callback -/
  | callback (code : ℕ)
deriving DecidableEq, Repr

/-- Callback invocations observable during one utterance. -/
inductive Event where
  | playbackStarted
  | playbackEnded
deriving DecidableEq, Repr

/-- The environment of one `synthesizeAndPlaySpeech` call. -/
structure TtsEnv where
  apiKeyPresent : Bool
  providerResult : Except ℕ (Option (List ℕ))
  startedThrows : Option ℕ
  currentTime : ℚ
deriving Repr

/-- `TTS_SAMPLE_RATE` from `geminiService.ts`. -/
def TTS_SAMPLE_RATE : ℕ := 24000

/-- `TTS_CHANNELS` from `geminiService.ts`. -/
def TTS_CHANNELS : ℕ := 1

/-- Result of one `synthesizeAndPlaySpeech` call: the callback events in
invocation order over the whole utterance (the deferred `ended` listener
included), the resolved value or rejection, the final value of the
`playbackScheduled` flag, and the cursor after the call. -/
structure TtsResult where
  events : List Event
  result : Except GeminiError Bool
  scheduled : Bool
  cursorAfter : ℚ
deriving Repr

/-- The `try` block of `synthesizeAndPlaySpeech` (lines 38-90 of
`geminiService.ts`): events fired inside the block, the
`playbackScheduled` flag, the cursor, and the outcome (`Except.error`
for a throw inside the block).  Control flow, in source order:

1. missing `API_KEY` throws;
2. `generateContent` may reject;
3. no `inlineData.data` in the response: `onPlaybackEnded()` fires and
   `false` is returned;
4. `decodeAudioData` may reject;
5. `onPlaybackStarted()` fires and may itself throw, in which case
   `playAudioBuffer` is never reached and `playbackScheduled` stays
   `false`;
6. `playAudioBuffer` schedules the chunk, the source is registered and
   `playbackScheduled` becomes `true`; the function returns it. -/
def ttsTryBody (env : TtsEnv) (cursor : ℚ) :
    List Event × Bool × ℚ × Except GeminiError Bool :=
  if env.apiKeyPresent = false then
    ([], false, cursor, .error .apiKeyMissing)
  else
    match env.providerResult with
    | .error code => ([], false, cursor, .error (.provider code))
    | .ok none => ([.playbackEnded], false, cursor, .ok false)
    | .ok (some decodedBytes) =>
      match decodeAudioData decodedBytes TTS_SAMPLE_RATE TTS_CHANNELS with
      | .error e => ([], false, cursor, .error (.decode e))
      | .ok audioBuffer =>
        match env.startedThrows with
        | some code => ([.playbackStarted], false, cursor, .error (.callback code))
        | none =>
          let p := playAudioBuffer audioBuffer env.currentTime cursor
          ([.playbackStarted], true, p.2, .ok true)

/-- `synthesizeAndPlaySpeech` (lines 20-114 of `geminiService.ts`),
whole-utterance view.  The `try` body runs; the `catch` clause fires
`onPlaybackEnded()` exactly when an error was thrown and
`playbackScheduled` is still `false`, then re-throws.  When a chunk was
scheduled, its registered `ended` listener fires once playback finishes,
emptying `currentSources` and invoking `onPlaybackEnded()` — the
deferred tail of the event list. -/
def synthesizeAndPlaySpeech (env : TtsEnv) (cursor : ℚ) : TtsResult :=
  let r := ttsTryBody env cursor
  let evs := r.1
  let sched := r.2.1
  let cursorAfter := r.2.2.1
  let res := r.2.2.2
  let catchEvents : List Event :=
    match res with
    | .ok _ => []
    | .error _ => if sched = false then [.playbackEnded] else []
  let deferredEvents : List Event := if sched = true then [.playbackEnded] else []
  { events := evs ++ catchEvents ++ deferredEvents
    result := res
    scheduled := sched
    cursorAfter := cursorAfter }

/-! ## Helper lemmas about the audio utilities -/

theorem duration_nonneg (b : AudioBuffer) : 0 ≤ duration b :=
  div_nonneg (Nat.cast_nonneg _) (Nat.cast_nonneg _)

theorem scheduleSeq_cons (cursor : ℚ) (b : AudioBuffer) (t : ℚ)
    (rest : List (AudioBuffer × ℚ)) :
    scheduleSeq cursor ((b, t) :: rest) =
      { cursorBefore := cursor, startTime := max cursor t, dur := duration b,
        cursorAfter := max cursor t + duration b }
        :: scheduleSeq (max cursor t + duration b) rest := rfl

theorem scheduleSeq_chain (cursor : ℚ) (bufs : List (AudioBuffer × ℚ)) :
    List.Chain' SchedOk (scheduleSeq cursor bufs) := by
  induction bufs generalizing cursor with
  | nil => simp [scheduleSeq]
  | cons b rest ih =>
    obtain ⟨buf, t⟩ := b
    rw [scheduleSeq_cons, List.chain'_cons']
    refine ⟨?_, ih _⟩
    intro y hy
    cases rest with
    | nil => simp [scheduleSeq] at hy
    | cons b2 rest2 =>
      obtain ⟨buf2, t2⟩ := b2
      rw [scheduleSeq_cons] at hy
      simp only [List.head?_cons, Option.mem_def, Option.some.injEq] at hy
      subst hy
      exact ⟨le_max_left _ _, rfl⟩

theorem scheduleSeq_entry (cursor : ℚ) (bufs : List (AudioBuffer × ℚ)) :
    ∀ e ∈ scheduleSeq cursor bufs,
      e.cursorBefore ≤ e.cursorAfter ∧ e.cursorAfter = e.startTime + e.dur := by
  induction bufs generalizing cursor with
  | nil => simp [scheduleSeq]
  | cons b rest ih =>
    obtain ⟨buf, t⟩ := b
    rw [scheduleSeq_cons]
    intro e he
    rcases List.mem_cons.mp he with h | h
    · subst h
      refine ⟨?_, rfl⟩
      exact le_trans (le_max_left _ _) (le_add_of_nonneg_right (duration_nonneg buf))
    · exact ih _ e h

/-! ## Claims about `playAudioBuffer` and back-to-back scheduling -/

/-- C3: for every buffer, cursor value, and current wall-clock time,
`playAudioBuffer` starts the buffer at exactly `max(cursor, currentTime)`
and leaves the cursor equal to that start time plus the buffer's
duration. -/
theorem claim_C3 (audioBuffer : AudioBuffer) (currentTime cursor : ℚ) :
    (playAudioBuffer audioBuffer currentTime cursor).1 = max cursor currentTime ∧
    (playAudioBuffer audioBuffer currentTime cursor).2 =
      (playAudioBuffer audioBuffer currentTime cursor).1 + duration audioBuffer :=
  ⟨rfl, rfl⟩

/-- C2: in every back-to-back schedule through `playAudioBuffer` against
one shared cursor, chunk `i+1` starts no earlier than chunk `i`'s start
time plus chunk `i`'s duration, the cursor is handed from call to call,
and each call leaves the cursor no smaller than it found it. -/
theorem claim_C2 (cursor : ℚ) (bufs : List (AudioBuffer × ℚ)) (i : ℕ)
    (h : i + 1 < (scheduleSeq cursor bufs).length) :
    ((scheduleSeq cursor bufs).getD i ⟨0, 0, 0, 0⟩).startTime +
        ((scheduleSeq cursor bufs).getD i ⟨0, 0, 0, 0⟩).dur ≤
      ((scheduleSeq cursor bufs).getD (i + 1) ⟨0, 0, 0, 0⟩).startTime ∧
    ((scheduleSeq cursor bufs).getD (i + 1) ⟨0, 0, 0, 0⟩).cursorBefore =
      ((scheduleSeq cursor bufs).getD i ⟨0, 0, 0, 0⟩).cursorAfter ∧
    ((scheduleSeq cursor bufs).getD i ⟨0, 0, 0, 0⟩).cursorBefore ≤
      ((scheduleSeq cursor bufs).getD i ⟨0, 0, 0, 0⟩).cursorAfter ∧
    ((scheduleSeq cursor bufs).getD (i + 1) ⟨0, 0, 0, 0⟩).cursorBefore ≤
      ((scheduleSeq cursor bufs).getD (i + 1) ⟨0, 0, 0, 0⟩).cursorAfter := by
  have hi : i < (scheduleSeq cursor bufs).length := Nat.lt_of_succ_lt h
  have hm : i < (scheduleSeq cursor bufs).length - 1 := by omega
  have hch := (List.chain'_iff_get.mp (scheduleSeq_chain cursor bufs)) i hm
  rw [List.getD_eq_getElem _ _ hi, List.getD_eq_getElem _ _ h]
  exact ⟨hch.1, hch.2,
    (scheduleSeq_entry cursor bufs _ (List.get_mem _ _ hi)).1,
    (scheduleSeq_entry cursor bufs _ (List.get_mem _ _ h)).1⟩

/-- A one-second test buffer used to instantiate the scheduling claims. -/
def oneSecondBuffer : AudioBuffer :=
  { numChannels := 1, sampleRate := 1, frames := 1, channels := [[0]] }

/-- Witness for C2: two one-second buffers scheduled back-to-back from
cursor 0 at wall-clock time 0. -/
theorem claim_C2_witness :
    0 + 1 < (scheduleSeq 0 [(oneSecondBuffer, 0), (oneSecondBuffer, 0)]).length ∧
    (((scheduleSeq 0 [(oneSecondBuffer, 0), (oneSecondBuffer, 0)]).getD 0
          ⟨0, 0, 0, 0⟩).startTime +
        ((scheduleSeq 0 [(oneSecondBuffer, 0), (oneSecondBuffer, 0)]).getD 0
          ⟨0, 0, 0, 0⟩).dur ≤
      ((scheduleSeq 0 [(oneSecondBuffer, 0), (oneSecondBuffer, 0)]).getD (0 + 1)
          ⟨0, 0, 0, 0⟩).startTime ∧
    ((scheduleSeq 0 [(oneSecondBuffer, 0), (oneSecondBuffer, 0)]).getD (0 + 1)
          ⟨0, 0, 0, 0⟩).cursorBefore =
      ((scheduleSeq 0 [(oneSecondBuffer, 0), (oneSecondBuffer, 0)]).getD 0
          ⟨0, 0, 0, 0⟩).cursorAfter ∧
    ((scheduleSeq 0 [(oneSecondBuffer, 0), (oneSecondBuffer, 0)]).getD 0
          ⟨0, 0, 0, 0⟩).cursorBefore ≤
      ((scheduleSeq 0 [(oneSecondBuffer, 0), (oneSecondBuffer, 0)]).getD 0
          ⟨0, 0, 0, 0⟩).cursorAfter ∧
    ((scheduleSeq 0 [(oneSecondBuffer, 0), (oneSecondBuffer, 0)]).getD (0 + 1)
          ⟨0, 0, 0, 0⟩).cursorBefore ≤
      ((scheduleSeq 0 [(oneSecondBuffer, 0), (oneSecondBuffer, 0)]).getD (0 + 1)
          ⟨0, 0, 0, 0⟩).cursorAfter) :=
  ⟨by decide, claim_C2 0 [(oneSecondBuffer, 0), (oneSecondBuffer, 0)] 0 (by decide)⟩

/-- C5: decoding any odd-length byte sequence fails with `DecodeFailed`
(the `Int16Array` view cannot be constructed). -/
theorem claim_C5 (data : List ℕ) (sampleRate numChannels : ℕ)
    (hodd : data.length % 2 = 1) :
    decodeAudioData data sampleRate numChannels = .error .DecodeFailed := by
  unfold decodeAudioData
  simp [hodd]

/-- Witness for C5: the one-byte input. -/
theorem claim_C5_witness :
    ([0] : List ℕ).length % 2 = 1 ∧
    decodeAudioData [0] 24000 1 = .error .DecodeFailed :=
  ⟨rfl, claim_C5 [0] 24000 1 rfl⟩

/-! ## Helper lemmas about the decoder -/

theorem toInt16List_length : ∀ data : List ℕ, (toInt16List data).length = data.length / 2
  | [] => by simp [toInt16List]
  | [_] => by simp [toInt16List]
  | _ :: _ :: rest => by
    simp only [toInt16List, List.length_cons, toInt16List_length rest]
    omega

theorem toInt16_bounds (lo hi : ℕ) (hlo : lo < 256) (hhi : hi < 256) :
    -32768 ≤ toInt16 lo hi ∧ toInt16 lo hi < 32768 := by
  unfold toInt16
  dsimp only
  split <;> omega

theorem toInt16List_mem_bounds : ∀ data : List ℕ, (∀ b ∈ data, b < 256) →
    ∀ v ∈ toInt16List data, -32768 ≤ v ∧ v < 32768
  | [], _, v, hv => by simp [toInt16List] at hv
  | [_], _, v, hv => by simp [toInt16List] at hv
  | lo :: hi :: rest, hb, v, hv => by
    simp only [toInt16List, List.mem_cons] at hv
    rcases hv with rfl | hv
    · exact toInt16_bounds lo hi (hb lo (by simp)) (hb hi (by simp))
    · exact toInt16List_mem_bounds rest (fun b hbm => hb b (by simp [hbm])) v hv

theorem frame_index_lt (i c L ch : ℕ) (hi : i < L / ch) (hc : c < ch) :
    i * ch + c < L :=
  calc i * ch + c < i * ch + ch := by omega
    _ = (i + 1) * ch := (Nat.succ_mul i ch).symm
    _ ≤ (L / ch) * ch := Nat.mul_le_mul_right ch hi
    _ ≤ L := Nat.div_mul_le_self L ch

theorem getD_range_map {α : Type} (f : ℕ → α) (n c : ℕ) (d : α) (hc : c < n) :
    ((List.range n).map f).getD c d = f c := by
  rw [List.getD_eq_getElem _ _ (by simpa using hc)]
  simp

theorem decodeAudioData_eq (data : List ℕ) (sampleRate numChannels : ℕ)
    (heven : data.length % 2 = 0) :
    decodeAudioData data sampleRate numChannels = .ok
      { numChannels := numChannels, sampleRate := sampleRate,
        frames := (toInt16List data).length / numChannels,
        channels := (List.range numChannels).map fun channel =>
          (List.range ((toInt16List data).length / numChannels)).map fun i =>
            ((toInt16List data).getD (i * numChannels + channel) 0 : ℚ) / 32768 } := by
  unfold decodeAudioData
  simp [heven]

/-! ## Claims about the decoder's output -/

/-- C4: decoding an even-length byte sequence succeeds, yields exactly
`byteLength / 2 / numChannels` frames (remainder samples silently
dropped), and each output sample is the corresponding little-endian
int16 value divided by 32768, hence lies in `[-1, 1)`. -/
theorem claim_C4 (data : List ℕ) (sampleRate numChannels c i : ℕ)
    (heven : data.length % 2 = 0) (hbytes : ∀ b ∈ data, b < 256)
    (hc : c < numChannels) (hi : i < data.length / 2 / numChannels) :
    (decodeAudioData data sampleRate numChannels).map AudioBuffer.frames =
      .ok (data.length / 2 / numChannels) ∧
    (decodeAudioData data sampleRate numChannels).map (fun b => sampleAt b c i) =
      .ok (((toInt16List data).getD (i * numChannels + c) 0 : ℚ) / 32768) ∧
    -1 ≤ (((toInt16List data).getD (i * numChannels + c) 0 : ℚ) / 32768) ∧
    (((toInt16List data).getD (i * numChannels + c) 0 : ℚ) / 32768) < 1 := by
  have hlen : (toInt16List data).length = data.length / 2 := toInt16List_length data
  have hi' : i < (toInt16List data).length / numChannels := by rw [hlen]; exact hi
  have hidx : i * numChannels + c < (toInt16List data).length :=
    frame_index_lt i c _ _ hi' hc
  have hv := toInt16List_mem_bounds data hbytes
    ((toInt16List data).getD (i * numChannels + c) 0)
    (by rw [List.getD_eq_getElem _ _ hidx]; exact List.getElem_mem hidx)
  refine ⟨?_, ?_, ?_, ?_⟩
  · rw [decodeAudioData_eq data sampleRate numChannels heven]
    simp [Except.map, hlen]
  · rw [decodeAudioData_eq data sampleRate numChannels heven]
    simp only [Except.map, sampleAt]
    congr 1
    rw [getD_range_map _ _ _ _ hc, getD_range_map _ _ _ _ hi']
  · rw [le_div_iff₀ (by norm_num : (0 : ℚ) < 32768)]
    have h1 : (-32768 : ℚ) ≤ ((toInt16List data).getD (i * numChannels + c) 0 : ℚ) := by
      exact_mod_cast hv.1
    linarith
  · rw [div_lt_one (by norm_num : (0 : ℚ) < 32768)]
    exact_mod_cast hv.2

/-- Witness for C4: the two bytes `[0, 128]` decode (mono) to the single
sample `-32768 / 32768 = -1`. -/
theorem claim_C4_witness :
    (decodeAudioData [0, 128] 8000 1).map AudioBuffer.frames =
      .ok (([0, 128] : List ℕ).length / 2 / 1) ∧
    (decodeAudioData [0, 128] 8000 1).map (fun b => sampleAt b 0 0) =
      .ok (((toInt16List [0, 128]).getD (0 * 1 + 0) 0 : ℚ) / 32768) ∧
    -1 ≤ (((toInt16List [0, 128]).getD (0 * 1 + 0) 0 : ℚ) / 32768) ∧
    (((toInt16List [0, 128]).getD (0 * 1 + 0) 0 : ℚ) / 32768) < 1 :=
  claim_C4 [0, 128] 8000 1 0 0 rfl (by decide) (by decide) (by decide)

/-- C8: any 48000-byte input decoded as mono int16 at 24000 Hz yields a
24000-frame, one-second buffer, and scheduling it with the cursor at 0
(wall clock 0) leaves the cursor at 1. -/
theorem claim_C8 (data : List ℕ) (h : data.length = 48000) :
    (decodeAudioData data 24000 1).map AudioBuffer.frames = .ok 24000 ∧
    (decodeAudioData data 24000 1).map duration = .ok 1 ∧
    (decodeAudioData data 24000 1).map (fun b => playAudioBuffer b 0 0) =
      .ok (0, 1) := by
  have heven : data.length % 2 = 0 := by omega
  rw [decodeAudioData_eq data 24000 1 heven]
  have hlen : (toInt16List data).length = 24000 := by
    rw [toInt16List_length, h]
  simp [Except.map, hlen, duration, playAudioBuffer]

/-- Witness for C8: 48000 zero bytes. -/
theorem claim_C8_witness :
    (decodeAudioData (List.replicate 48000 0) 24000 1).map AudioBuffer.frames =
      .ok 24000 ∧
    (decodeAudioData (List.replicate 48000 0) 24000 1).map duration = .ok 1 ∧
    (decodeAudioData (List.replicate 48000 0) 24000 1).map
        (fun b => playAudioBuffer b 0 0) = .ok (0, 1) :=
  claim_C8 (List.replicate 48000 0) (by rw [List.length_replicate])

/-! ## Case analysis of `synthesizeAndPlaySpeech`

Every call falls into one of four outcomes: a failure before
`onPlaybackStarted` (missing key, provider rejection, decode rejection),
the no-audio terminal state, a throw inside `onPlaybackStarted`, or a
successful schedule. -/

theorem tts_cases (env : TtsEnv) (cursor : ℚ) :
    ((synthesizeAndPlaySpeech env cursor).events = [Event.playbackEnded] ∧
      (synthesizeAndPlaySpeech env cursor).scheduled = false ∧
      ∃ e, (synthesizeAndPlaySpeech env cursor).result = .error e) ∨
    ((synthesizeAndPlaySpeech env cursor).events = [Event.playbackEnded] ∧
      (synthesizeAndPlaySpeech env cursor).scheduled = false ∧
      (synthesizeAndPlaySpeech env cursor).result = .ok false) ∨
    (∃ code, env.startedThrows = some code ∧
      (synthesizeAndPlaySpeech env cursor).events =
        [Event.playbackStarted, Event.playbackEnded] ∧
      (synthesizeAndPlaySpeech env cursor).scheduled = false ∧
      (synthesizeAndPlaySpeech env cursor).result = .error (.callback code)) ∨
    (env.startedThrows = none ∧
      (synthesizeAndPlaySpeech env cursor).events =
        [Event.playbackStarted, Event.playbackEnded] ∧
      (synthesizeAndPlaySpeech env cursor).scheduled = true ∧
      (synthesizeAndPlaySpeech env cursor).result = .ok true) := by
  obtain ⟨key, pr, st, t⟩ := env
  cases key with
  | false =>
    refine Or.inl ⟨?_, ?_, ⟨.apiKeyMissing, ?_⟩⟩ <;>
      simp [synthesizeAndPlaySpeech, ttsTryBody]
  | true =>
    cases pr with
    | error code =>
      refine Or.inl ⟨?_, ?_, ⟨.provider code, ?_⟩⟩ <;>
        simp [synthesizeAndPlaySpeech, ttsTryBody]
    | ok opt =>
      cases opt with
      | none =>
        refine Or.inr (Or.inl ⟨?_, ?_, ?_⟩) <;>
          simp [synthesizeAndPlaySpeech, ttsTryBody]
      | some bytes =>
        rcases hdec : decodeAudioData bytes TTS_SAMPLE_RATE TTS_CHANNELS with e | buf
        · refine Or.inl ⟨?_, ?_, ⟨.decode e, ?_⟩⟩ <;>
            simp [synthesizeAndPlaySpeech, ttsTryBody, hdec]
        · cases st with
          | some code =>
            refine Or.inr (Or.inr (Or.inl ⟨code, rfl, ?_, ?_, ?_⟩)) <;>
              simp [synthesizeAndPlaySpeech, ttsTryBody, hdec]
          | none =>
            refine Or.inr (Or.inr (Or.inr ⟨rfl, ?_, ?_, ?_⟩)) <;>
              simp [synthesizeAndPlaySpeech, ttsTryBody, hdec]

/-! ## Concrete call environments used by the witnesses -/

/-- A call with `process.env.API_KEY` absent. -/
def envNoKey : TtsEnv :=
  { apiKeyPresent := false, providerResult := .ok none,
    startedThrows := none, currentTime := 0 }

/-- A call whose provider response carries no audio payload. -/
def envNoAudio : TtsEnv :=
  { apiKeyPresent := true, providerResult := .ok none,
    startedThrows := none, currentTime := 0 }

/-- A call whose provider returns one silent sample and whose callbacks
behave. -/
def envAudioOk : TtsEnv :=
  { apiKeyPresent := true, providerResult := .ok (some [0, 0]),
    startedThrows := none, currentTime := 0 }

/-- A call whose `onPlaybackStarted` callback throws. -/
def envCallbackThrows : TtsEnv :=
  { apiKeyPresent := true, providerResult := .ok (some [0, 0]),
    startedThrows := some 7, currentTime := 0 }

/-! ## Claims about `synthesizeAndPlaySpeech` -/

/-- C1: every call that rejects does so with no chunk scheduled, with
`onPlaybackEnded` invoked exactly once, as the last callback before the
rejection propagates. -/
theorem claim_C1 (env : TtsEnv) (cursor : ℚ) (e : GeminiError)
    (h : (synthesizeAndPlaySpeech env cursor).result = .error e) :
    (synthesizeAndPlaySpeech env cursor).scheduled = false ∧
    (synthesizeAndPlaySpeech env cursor).events.count Event.playbackEnded = 1 ∧
    (synthesizeAndPlaySpeech env cursor).events.getLast? =
      some Event.playbackEnded := by
  rcases tts_cases env cursor with ⟨hev, hs, _⟩ | ⟨hev, hs, hr⟩ |
    ⟨code, _, hev, hs, hr⟩ | ⟨_, hev, hs, hr⟩
  · rw [hev]; exact ⟨hs, by decide, by decide⟩
  · rw [hr] at h; simp at h
  · rw [hev]; exact ⟨hs, by decide, by decide⟩
  · rw [hr] at h; simp at h

/-- Witness for C1: the missing-credential call. -/
theorem claim_C1_witness :
    (synthesizeAndPlaySpeech envNoKey 0).result =
      .error GeminiError.apiKeyMissing ∧
    (synthesizeAndPlaySpeech envNoKey 0).scheduled = false ∧
    (synthesizeAndPlaySpeech envNoKey 0).events.count Event.playbackEnded = 1 ∧
    (synthesizeAndPlaySpeech envNoKey 0).events.getLast? =
      some Event.playbackEnded :=
  ⟨rfl, claim_C1 envNoKey 0 GeminiError.apiKeyMissing rfl⟩

/-- C6: a response without an audio payload resolves to `false`,
`onPlaybackEnded` fires exactly once and `onPlaybackStarted` never
fires. -/
theorem claim_C6 (env : TtsEnv) (cursor : ℚ)
    (hkey : env.apiKeyPresent = true)
    (hna : env.providerResult = .ok none) :
    (synthesizeAndPlaySpeech env cursor).result = .ok false ∧
    (synthesizeAndPlaySpeech env cursor).events = [Event.playbackEnded] ∧
    (synthesizeAndPlaySpeech env cursor).events.count Event.playbackEnded = 1 ∧
    Event.playbackStarted ∉ (synthesizeAndPlaySpeech env cursor).events := by
  simp [synthesizeAndPlaySpeech, ttsTryBody, hkey, hna]

/-- Witness for C6: the no-audio call. -/
theorem claim_C6_witness :
    (synthesizeAndPlaySpeech envNoAudio 0).result = .ok false ∧
    (synthesizeAndPlaySpeech envNoAudio 0).events = [Event.playbackEnded] ∧
    (synthesizeAndPlaySpeech envNoAudio 0).events.count Event.playbackEnded = 1 ∧
    Event.playbackStarted ∉ (synthesizeAndPlaySpeech envNoAudio 0).events :=
  claim_C6 envNoAudio 0 rfl rfl

/-- C7: whenever both callbacks fire within one utterance,
`onPlaybackStarted` fires strictly before `onPlaybackEnded`. -/
theorem claim_C7 (env : TtsEnv) (cursor : ℚ)
    (hs : Event.playbackStarted ∈ (synthesizeAndPlaySpeech env cursor).events)
    (he : Event.playbackEnded ∈ (synthesizeAndPlaySpeech env cursor).events) :
    (synthesizeAndPlaySpeech env cursor).events.indexOf Event.playbackStarted <
      (synthesizeAndPlaySpeech env cursor).events.indexOf Event.playbackEnded := by
  rcases tts_cases env cursor with ⟨hev, _, _⟩ | ⟨hev, _, _⟩ |
    ⟨_, _, hev, _, _⟩ | ⟨_, hev, _, _⟩ <;> rw [hev] at hs ⊢
  · exact absurd hs (by decide)
  · exact absurd hs (by decide)
  · decide
  · decide

/-- Witness for C7: the successful call. -/
theorem claim_C7_witness :
    (synthesizeAndPlaySpeech envAudioOk 0).events.indexOf Event.playbackStarted <
      (synthesizeAndPlaySpeech envAudioOk 0).events.indexOf Event.playbackEnded :=
  claim_C7 envAudioOk 0 (by decide) (by decide)

/-- C9: when the `onPlaybackStarted` callback itself throws, no chunk is
scheduled, `onPlaybackEnded` still fires exactly once, and the thrown
error propagates to the caller. -/
theorem claim_C9 (env : TtsEnv) (cursor : ℚ) (code : ℕ)
    (hthrow : env.startedThrows = some code)
    (hstarted : Event.playbackStarted ∈ (synthesizeAndPlaySpeech env cursor).events) :
    (synthesizeAndPlaySpeech env cursor).scheduled = false ∧
    (synthesizeAndPlaySpeech env cursor).events.count Event.playbackEnded = 1 ∧
    (synthesizeAndPlaySpeech env cursor).result = .error (.callback code) := by
  rcases tts_cases env cursor with ⟨hev, hs, _⟩ | ⟨hev, hs, hr⟩ |
    ⟨c2, hth, hev, hs, hr⟩ | ⟨hth, hev, hs, hr⟩
  · rw [hev] at hstarted; exact absurd hstarted (by decide)
  · rw [hev] at hstarted; exact absurd hstarted (by decide)
  · rw [hthrow] at hth
    obtain rfl : code = c2 := Option.some_inj.mp hth
    exact ⟨hs, by rw [hev]; decide, hr⟩
  · rw [hthrow] at hth
    exact absurd hth (by simp)

/-- Witness for C9: the call whose started-callback throws. -/
theorem claim_C9_witness :
    (synthesizeAndPlaySpeech envCallbackThrows 0).scheduled = false ∧
    (synthesizeAndPlaySpeech envCallbackThrows 0).events.count
      Event.playbackEnded = 1 ∧
    (synthesizeAndPlaySpeech envCallbackThrows 0).result =
      .error (.callback 7) :=
  claim_C9 envCallbackThrows 0 7 rfl (by decide)

/-- C10: a call that resolves returns `true` exactly when
`onPlaybackStarted` fired, equivalently exactly when a chunk was
scheduled. -/
theorem claim_C10 (env : TtsEnv) (cursor : ℚ) (b : Bool)
    (h : (synthesizeAndPlaySpeech env cursor).result = .ok b) :
    (b = true ↔
      Event.playbackStarted ∈ (synthesizeAndPlaySpeech env cursor).events) ∧
    (b = true ↔ (synthesizeAndPlaySpeech env cursor).scheduled = true) := by
  rcases tts_cases env cursor with ⟨hev, hs, e, hr⟩ | ⟨hev, hs, hr⟩ |
    ⟨c2, _, hev, hs, hr⟩ | ⟨_, hev, hs, hr⟩
  · rw [hr] at h; simp at h
  · rw [hr] at h
    injection h with h2
    subst h2
    simp [hev, hs]
  · rw [hr] at h; simp at h
  · rw [hr] at h
    injection h with h2
    subst h2
    simp [hev, hs]

/-- Witness for C10: the successful call resolves to `true` and both the
started event and the scheduled flag agree. -/
theorem claim_C10_witness :
    (true = true ↔
      Event.playbackStarted ∈ (synthesizeAndPlaySpeech envAudioOk 0).events) ∧
    (true = true ↔ (synthesizeAndPlaySpeech envAudioOk 0).scheduled = true) :=
  claim_C10 envAudioOk 0 true rfl

end Bot
